import Mathlib

/-!
Verification of the averaging/plotting pipeline of
`IPCCAR6_WG1_Chapter3_Figs3.2a_3.44.py` (IPCC AR6 WG1 Chapter 3,
Figures 3.2a and 3.44).

The script's numeric fields are shallowly embedded as `List ℚ`; masked
arrays (numpy.ma / MV2) as lists of value-mask cells; the Monte Carlo
randomness is made explicit: each realisation receives the standard
normal deviates (for `random.gauss`) or the chosen index sets (for
`numpy.random.choice`) it consumes as an argument.  `numpy.average` is
the arithmetic mean and `numpy.std` the square root of the population
variance `nvar` defined below; statements compare means and variances
(equal lists of samples have equal means and standard deviations for
any definition of std).
-/

namespace DMC

/-- Arithmetic mean, `numpy.average` of a 1-d array. -/
def average (xs : List ℚ) : ℚ := xs.sum / xs.length

/-- Population variance: the square of `numpy.std` of a 1-d array. -/
def nvar (xs : List ℚ) : ℚ := average (xs.map (fun x => (x - average xs) ^ 2))

/-- Weighted sum `N.sum (xs * ws)` of two equal-length arrays. -/
def wsum (xs ws : List ℚ) : ℚ := (List.zipWith (fun a b => a * b) xs ws).sum

/-- `niter = 10000` (line 518): number of Monte Carlo iterations. -/
def niter : ℕ := 10000

/-- `nbyrs = 50` (line 607): number of years in each random temporal sample. -/
def nbyrs : ℕ := 50

/-! ### Monte Carlo average of the reconstructions (script lines 517-531)

The script calls Python's standard library `random.gauss(rme, rse)` on the
numpy vectors `rme`, `rse` (line 523).  `random.gauss(mu, sigma)` draws a
single scalar standard normal deviate `z` and returns `mu + z*sigma`; with
array arguments this broadcasts, so every grid point of one realisation is
perturbed with the same deviate `z`. -/

/-- One component of `random.gauss(rme, rse)`: `mu + z * sigma` where `z` is
the (scalar) standard normal deviate drawn by the call. -/
def random_gauss (mu sigma z : ℚ) : ℚ := mu + z * sigma

/-- The perturbed field `random.gauss(rme, rse)` of line 523: the single
deviate `z` of the call is broadcast over all grid points. -/
def gaussField (rme rse : List ℚ) (z : ℚ) : List ℚ :=
  List.zipWith (fun m s => random_gauss m s z) rme rse

/-- One Monte Carlo realisation `N.sum(random.gauss(rme,rse)*recwei)`
(line 523), given the deviate `z` consumed by that iteration. -/
def rraveOne (rme rse recwei : List ℚ) (z : ℚ) : ℚ :=
  (List.zipWith (fun g w => g * w) (gaussField rme rse z) recwei).sum

/-- The list `rrave` of `niter` realisations (lines 521-523), given the
list `zs` of deviates consumed by the iterations. -/
def rrave (rme rse recwei : List ℚ) (zs : List ℚ) : List ℚ :=
  zs.map (rraveOne rme rse recwei)

/-- `frave = N.average(rrave)` (line 525), stored as
`dic_res[...]['reconstructions']['mean']`. -/
def frave (rme rse recwei : List ℚ) (zs : List ℚ) : ℚ :=
  average (rrave rme rse recwei zs)

/-- Square of `frstd = N.std(rrave)` (line 526), whose square root is stored
as `dic_res[...]['reconstructions']['std']`. -/
def frvar (rme rse recwei : List ℚ) (zs : List ℚ) : ℚ :=
  nvar (rrave rme rse recwei zs)

/-! ### Monte Carlo temporal averages of the model output (lines 604-642) -/

/-- `N.random.choice(a, n, replace=0)` (lines 634-635): numpy raises a
`ValueError` (modelled `none`) when the requested sample size `n` exceeds
the population size; otherwise it returns the values of `a` at `n`
randomly chosen distinct indices, here supplied by `idxs` (the random
index sequence generated internally by numpy, always in range). -/
def npChoiceNoReplace (a : List ℚ) (n : ℕ) (idxs : List ℕ) : Option (List ℚ) :=
  if a.length < n then none
  else some ((idxs.take n).map (fun i => a.getD i 0))

/-- Fallible loop accumulation: the Python `for` loop appending `f x` for
each `x`, aborting with the exception (`none`) of the first failing call. -/
def optMap {α β : Type} (f : α → Option β) : List α → Option (List β)
  | [] => some []
  | x :: xs =>
    match f x, optMap f xs with
    | some y, some ys => some (y :: ys)
    | _, _ => none

/-- `distpi` (lines 631-634): per-iteration averages of random 50-year
samples of the pre-industrial series.  `draws` carries, per iteration, the
index sets consumed for the (pi, past) pair of `N.random.choice` calls. -/
def distpi (piS : List ℚ) (draws : List (List ℕ × List ℕ)) : Option (List ℚ) :=
  optMap (fun dr => (npChoiceNoReplace piS nbyrs dr.1).map average) draws

/-- `distpast` (lines 632-635): same for the past-period series. -/
def distpast (pastS : List ℚ) (draws : List (List ℕ × List ℕ)) : Option (List ℚ) :=
  optMap (fun dr => (npChoiceNoReplace pastS nbyrs dr.2).map average) draws

/-- `deltam = distpast - distpi` (line 639): elementwise difference of the
two arrays of sampled temporal averages. -/
def deltam (piS pastS : List ℚ) (draws : List (List ℕ × List ℕ)) : Option (List ℚ) :=
  match distpi piS draws, distpast pastS draws with
  | some dpi, some dpa => some (List.zipWith (fun a b => a - b) dpa dpi)
  | _, _ => none

/-- `N.average(deltam)` (line 641), stored as `['delta_mean']`. -/
def delta_mean (piS pastS : List ℚ) (draws : List (List ℕ × List ℕ)) : Option ℚ :=
  (deltam piS pastS draws).map average

/-- Square of `N.std(deltam)` (line 642), whose square root is stored as
`['delta_std']`. -/
def delta_var (piS pastS : List ℚ) (draws : List (List ℕ × List ℕ)) : Option ℚ :=
  (deltam piS pastS draws).map nvar

/-- Claim C2's description of the procedure: each iteration draws a random
50-year sample from the past-period series and an independent random
50-year sample from the pre-industrial series, averages each, and takes
the difference past minus pre-industrial. -/
def claimDiffs (piS pastS : List ℚ) (draws : List (List ℕ × List ℕ)) : Option (List ℚ) :=
  optMap (fun dr =>
    match npChoiceNoReplace pastS nbyrs dr.2, npChoiceNoReplace piS nbyrs dr.1 with
    | some spa, some spi => some (average spa - average spi)
    | _, _ => none) draws

/-! ### Masked arrays (numpy.ma / MV2) and the reconstruction masks
(script lines 486-513)

A masked array is a list of cells, each holding a value and a mask bit
(`true` = masked).  NaN values in the Tierney2019 fields are folded into
the mask by `MV.masked_where(N.isnan(...), ...)` (lines 487-488), which the
model expresses with `masked_where` over the NaN positions, so cell values
can stay in `ℚ`. -/

structure MCell where
  val : ℚ
  msk : Bool
deriving DecidableEq, Repr

abbrev MArr := List MCell

/-- `x.compressed()`: the unmasked values, in grid order. -/
def compressedA (a : MArr) : List ℚ :=
  (a.filter (fun c => !c.msk)).map MCell.val

/-- `x.count()`: the number of unmasked cells (line 503, `nrec`). -/
def countA (a : MArr) : ℕ := (a.filter (fun c => !c.msk)).length

/-- `x.mask` as a list of booleans. -/
def maskOf (a : MArr) : List Bool := a.map MCell.msk

/-- `MV.masked_where(cond, x)`: masked where `cond` holds, keeping the
existing mask elsewhere. -/
def masked_where (cond : List Bool) (a : MArr) : MArr :=
  List.zipWith (fun b c => ⟨c.val, b || c.msk⟩) cond a

/-- `rsemask + rmemask` (line 492): addition of boolean masks is union. -/
def maskSum (m1 m2 : List Bool) : List Bool :=
  List.zipWith (fun a b => a || b) m1 m2

/-- `N.sum` of a masked array: sums the unmasked entries only. -/
def msum (a : MArr) : ℚ := (compressedA a).sum

/-- `recmask = rsemask + rmemask` (lines 490-492). -/
def recmask (rmeorig rseorig : MArr) : List Bool :=
  maskSum (maskOf rseorig) (maskOf rmeorig)

/-- `rmeorig = MV.masked_where(recmask, rmeorig)` (line 493). -/
def rmeM (rmeorig rseorig : MArr) : MArr :=
  masked_where (recmask rmeorig rseorig) rmeorig

/-- `rseorig = MV.masked_where(recmask, rseorig)` (line 494). -/
def rseM (rmeorig rseorig : MArr) : MArr :=
  masked_where (recmask rmeorig rseorig) rseorig

/-- `cdutil.area_weights(x)` (line 508): the grid cell areas `areas`,
masked where `x` is masked (the script relies on the result being a
masked array: it calls `.compressed()` on it at line 512). -/
def area_weights (areas : List ℚ) (a : MArr) : MArr :=
  List.zipWith (fun ar c => ⟨ar, c.msk⟩) areas a

/-- `recweights /= N.sum(recweights)` (line 509): every cell value is
divided by the total over the unmasked cells. -/
def recweights (areas : List ℚ) (a : MArr) : MArr :=
  let raw := area_weights areas a
  raw.map (fun c => ⟨c.val / msum raw, c.msk⟩)

/-- `recwei = recweights.compressed()` (line 512). -/
def recwei (areas : List ℚ) (a : MArr) : List ℚ :=
  compressedA (recweights areas a)

/-- Pairing of two masked arrays cell by cell (same grid point), a pair
being masked when either component is. -/
def zipM (a b : MArr) : List ((ℚ × ℚ) × Bool) :=
  List.zipWith (fun c d => ((c.val, d.val), c.msk || d.msk)) a b

/-- Unmasked pairs of a cellwise pairing, in grid order. -/
def compressedPairs (l : List ((ℚ × ℚ) × Bool)) : List (ℚ × ℚ) :=
  (l.filter (fun p => !p.2)).map Prod.fst

/-! ### Configuration tables (script lines 54-298) -/

def list_periods : List String := ["LGM", "MH"]

def list_regions : List String := ["Globe", "WesternEurope", "NAmerica", "WestAfrica"]

def list_reconstructions : List String := ["Tierney2019", "Bartlein2011", "Cleator2019"]

def list_pmip3_models_lgm : List String :=
  ["IPSL", "CNRM", "MIROC", "MPI-p1", "MPI-p2", "MRI", "GISSE2-p1", "GISSE2-p2", "CESM"]

def list_pmip4_models_lgm : List String :=
  ["CESM2.1", "CESM1-2", "AWI-ESM-1-1-LR", "AWIESM2", "iLOVECLIM-ICE-6G",
   "iLOVECLIM-GLAC1D", "INM-CM4-8", "MIROC-ES2L", "MPI-ESM1-2-LR", "UT-CCSM4", "IPSLCM5A2"]

def list_models_lgm : List String := list_pmip3_models_lgm ++ list_pmip4_models_lgm

def list_pmip3_models_mh : List String :=
  ["bcc-csm1-1", "CCSM4", "CNRM-CM5", "CSIRO-Mk3-6-0", "CSIRO-Mk3L-1-2",
   "FGOALS-g2", "FGOALS-s2", "GISS-E2-R", "HadGEM2-ES", "IPSL-CM5A-LR",
   "MIROC-ESM", "MPI-ESM-P", "MRI-CGCM3"]

def list_pmip4_models_mh : List String :=
  ["AWI-ESM-1-1-LR", "CESM2", "EC-Earth3-LR", "FGOALS-f3-L", "FGOALS-g3",
   "GISS-E2-1-G", "HadGEM3-GC31", "INM-CM4-8", "IPSL-CM6A-LR", "MIROC-ES2L",
   "MPI-ESM1-2-LR", "MRI-ESM2-0", "NESM3", "NorESM1-F", "NorESM2-LM", "UofT-CCSM-4"]

def list_models_mh : List String := list_pmip3_models_mh ++ list_pmip4_models_mh

def list_pmip3_models : List String := list_pmip3_models_lgm ++ list_pmip3_models_mh

def list_pmip4_models : List String :=
  list_pmip4_models_lgm ++ list_pmip4_models_mh ++ ["ACCESS-ESM1-5", "CNRM-CM6-1"]

def list_cmip6_models : List String :=
  ["ACCESS-ESM1-5", "AWI-ESM-1-1-LR", "CESM2", "CESM2.1", "EC-Earth3-LR",
   "FGOALS-f3-L", "FGOALS-g3", "GISS-E2-1-G", "HadGEM3-GC31", "INM-CM4-8",
   "IPSL-CM6A-LR", "MIROC-ES2L", "MPI-ESM1-2-LR", "MRI-ESM2-0", "NESM3", "NorESM2-LM"]

/-- `dic_list_vars` (lines 233-239): the variables to process for each
(period, reconstruction dataset) pair; `none` when the pair is absent. -/
def dic_list_vars (period rds : String) : Option (List String) :=
  if period = "LGM" then
    if rds = "Bartlein2011" then some ["MTCO", "MAT", "MTWA", "MAP"]
    else if rds = "Cleator2019" then some ["MTCO", "MAT", "MTWA", "MAP"]
    else if rds = "Tierney2019" then some ["MATocean"]
    else none
  else if period = "MH" then
    if rds = "Bartlein2011" then some ["MTCO", "MAT", "MTWA", "MAP"] else none
  else none

/-- `dic_rds_masks` (lines 153-156). -/
def dic_rds_masks (rds : String) : Option String :=
  if rds = "Bartlein2011" ∨ rds = "Cleator2019" ∨ rds = "Tierney2019" then some "own"
  else none

/-- The model list selected for a period (lines 451-456). -/
def modelsOf (period : String) : List String :=
  if period = "LGM" then list_models_lgm
  else if period = "MH" then list_models_mh
  else []

/-! ### The shape of `dic_res` after the averaging stage (claim C3) -/

/-- The combinations (period, var, region, rds) actually processed by the
averaging loops (lines 450-470): rds is skipped (`continue`) when absent
from `dic_list_vars[period]`. -/
def processedCombos : List (String × String × String × String) :=
  list_periods.flatMap (fun period =>
    list_regions.flatMap (fun region =>
      list_reconstructions.flatMap (fun rds =>
        match dic_list_vars period rds with
        | none => []
        | some vars => vars.map (fun var => (period, var, region, rds)))))

/-- `caseNames`: the two keys of `dic_stat_vars` (lines 612-615). -/
def caseNames : List String := ["allmodelpts", "modelonrecpts"]

/-- The key paths stored under `dic_res[period][var][region][rds]` by one
iteration of the averaging loop (lines 498, 505, 529-531, 617, 641-642;
`compute_monte_carlo_averages == 'yes'`, so both `delta_mean` and
`delta_std` are stored for each model and case).  Depends only on the
period (model list) and dataset (mask choice). -/
def entryPaths (period rds : String) : List (List String) :=
  (if dic_rds_masks rds = some "own" then [["mask"]] else []) ++
  [["nbpts"], ["reconstructions", "mean"], ["reconstructions", "std"]] ++
  (modelsOf period).flatMap (fun m =>
    caseNames.flatMap (fun cs => [[m, cs, "delta_mean"], [m, cs, "delta_std"]]))

/-- Claim C3's enumeration of the processed combinations: every period in
['LGM','MH'], every region in the four listed regions, the datasets listed
for that period (Bartlein2011, Cleator2019 and Tierney2019 for LGM; only
Bartlein2011 for MH), and every variable listed for that dataset. -/
def claimDatasets (period : String) : List String :=
  if period = "LGM" then ["Tierney2019", "Bartlein2011", "Cleator2019"]
  else if period = "MH" then ["Bartlein2011"]
  else []

def claimVars (rds : String) : List String :=
  if rds = "Tierney2019" then ["MATocean"] else ["MTCO", "MAT", "MTWA", "MAP"]

def claimCombos : List (String × String × String × String) :=
  list_periods.flatMap (fun period =>
    list_regions.flatMap (fun region =>
      (claimDatasets period).flatMap (fun rds =>
        (claimVars rds).map (fun var => (period, var, region, rds)))))

/-- Claim C3's required contents of an entry: keys 'mask', 'nbpts', a
'reconstructions' sub-dictionary with 'mean' and 'std', and for every model
of the period both cases with 'delta_mean' and 'delta_std'. -/
def claimPaths (period : String) : List (List String) :=
  [["mask"], ["nbpts"], ["reconstructions", "mean"], ["reconstructions", "std"]] ++
  (modelsOf period).flatMap (fun m =>
    [[m, "allmodelpts", "delta_mean"], [m, "allmodelpts", "delta_std"],
     [m, "modelonrecpts", "delta_mean"], [m, "modelonrecpts", "delta_std"]])

/-! ### The shelve cache (claim C5, lines 431-434 and 649-651)

Modelled from the spec: "results cached to a key-value store keyed by
nested dictionary path".  The `shelve` module is external to the
repository; it is modelled as an association list from string keys to
stored structures, assignment prepending and lookup returning the most
recent binding. -/

abbrev Store (α : Type) := List (String × α)

/-- `shelf[key] = v`. -/
def shelvePut {α : Type} (st : Store α) (k : String) (v : α) : Store α :=
  (k, v) :: st

/-- `shelf[key]` (raises, i.e. `none`, when the key is absent). -/
def shelveGet {α : Type} : Store α → String → Option α
  | [], _ => none
  | (k', v) :: st, k => if k' = k then some v else shelveGet st k

/-- `save_res['dic_res'] = dic_res` (lines 649-650). -/
def partI_save {α : Type} (st : Store α) (d : α) : Store α :=
  shelvePut st "dic_res" d

/-- `dic_res = saved_dic['dic_res']` (lines 432-433), executed when
`compute_averages_again != 'yes'`. -/
def partI_load {α : Type} (st : Store α) : Option α :=
  shelveGet st "dic_res"

/-! ### Unit conversion before regridding (claim C7, lines 575-586) -/

def tempConvertVars : List String := ["MAT", "MTCO", "MTWA", "MATocean"]

def iloveclimModels : List String := ["iLOVECLIM-ICE-6G", "iLOVECLIM-GLAC1D"]

/-- The unit conversion of lines 575-582 applied to one model field:
temperatures get `-= 273.15`; `MAP` gets `*= 86400.*365` unless the model
is one of the two iLOVECLIM configurations. -/
def convertUnits (var model : String) (v : List ℚ) : List ℚ :=
  let v1 := if var ∈ tempConvertVars then v.map (fun x => x - 273.15) else v
  if var ∈ ["MAP"] then
    (if model ∈ iloveclimModels then v1 else v1.map (fun x => x * (86400 * 365)))
  else v1

/-- Lines 575-586 for one field: the unit conversion happens first, then
the regridding onto the reconstruction grid (`regrid` abstracts
`.regrid(recgrid, regridTool='regrid2')`). -/
def modelFieldPipeline (regrid : List ℚ → List ℚ) (var model : String) (v : List ℚ) : List ℚ :=
  regrid (convertUnits var model v)

/-! ### Mid-Holocene glob file resolution (claim C10, lines 544-572) -/

/-- Lines 546-551 (and 562-568): the file name variable is (re)assigned
only when the glob match list has exactly one element; otherwise the
script just prints a message and the binding is left as it was (`cur`,
with `none` for an as-yet-unbound name). -/
def globResolve (file_list : List String) (cur : Option String) : Option String :=
  if file_list.length = 1 then file_list.head? else cur

/-- `c.open(fnamepi)` (line 556): evaluating an unbound name raises a
`NameError`; otherwise the currently bound file name is opened. -/
def copen (fname : Option String) : Except String String :=
  match fname with
  | none => Except.error "NameError"
  | some f => Except.ok f

/-! ### Part II, the plotting stage (claim C6, lines 653-1071)

`dic_res` is modelled as an association list from access paths to the
stored numbers; every access Part II makes is a `resGet` lookup.  The
text reports and the figures are modelled jointly as the stream `out` of
numeric values read from `dic_res` (or from the global-mean configuration
tables) and emitted by `f.write` / plotting calls; `%`-formatting, axes,
colours and legends carry no further `dic_res` accesses and are not
modelled.  The Python 2 iteration order over `dic_summ_plots.keys()` is
unspecified; the subplots are modelled in the insertion order of lines
668-686, which does not affect which accesses happen. -/

inductive ResPath where
  | recMean (period var region rds : String)
  | recStd (period var region rds : String)
  | nbpts (period var region rds : String)
  | deltaMean (period var region rds model case : String)
  | deltaStd (period var region rds model case : String)
deriving DecidableEq, Repr

abbrev DicRes := List (ResPath × ℚ)

/-- Reading one number out of `dic_res`. -/
def resGet (d : DicRes) (p : ResPath) : ℚ :=
  match d with
  | [] => 0
  | (q, x) :: rest => if q = p then x else resGet rest p

/-- `dic_global_mean_lig` (lines 92-109). -/
def dic_global_mean_lig : List (String × ℚ) :=
  [("ACCESS-ESM1-5", 0.33), ("AWI-ESM-1-1-LR", -0.25), ("AWIESM2", -0.20),
   ("CESM2", -0.11), ("CNRM-CM6-1", 0.4), ("EC-Earth3-LR", 0.45),
   ("FGOALS-f3-L", -0.48), ("FGOALS-g3", 0.38), ("GISS-E2-1-G", -0.12),
   ("HadGEM3-GC31", 0.56), ("INM-CM4-8", -0.2), ("IPSL-CM6A-LR", -0.29),
   ("MIROC-ES2L", -0.4), ("MPI-ESM1-2-LR", -0.12), ("NESM3", 0.07),
   ("NorESM1-F", -0.24), ("NorESM2-LM", -0.11)]

/-- `dic_global_mean_plio` (lines 111-128). -/
def dic_global_mean_plio : List (String × ℚ) :=
  [("CCSM4-plio", 2.64831), ("CCSM4-UoT", 3.79105), ("CCSM4-Utrecht", 4.67974),
   ("CESM1.2", 4.03265), ("CESM2", 5.22695), ("COSMOS", 3.32687),
   ("EC-Earth3-LR", 4.84114), ("GISS-E2-1-G", 2.08071), ("HadCM3", 2.89054),
   ("IPSL-CM6A-LR", 3.47365), ("IPSLCM5A", 2.29695), ("IPSLCM5A2", 2.16866),
   ("MIROC4m", 3.13146), ("MRI-CGCM2.3", 2.45558), ("NorESM-L", 2.09194),
   ("NorESM1-F", 1.73549), ("HadGEM3", 5.05506)]

/-- `dic_global_mean_eocene` (lines 130-136). -/
def dic_global_mean_eocene : List (String × ℚ) :=
  [("CESM1.2_CAM5-deepmip_stand_6xCO2", 16.5428),
   ("COSMOS-landveg_r2413-deepmip_sens_4xCO2", 13.0424),
   ("GFDL_CM2.1-deepmip_stand_6xCO2", 14.5911),
   ("GFDL_CM2.1-deepmip_sens_4xCO2", 11.8548),
   ("INM-CM4-8-deepmip_stand_6xCO2", 10.1490),
   ("NorESM1_F-deepmip_sens_4xCO2", 9.61720)]

/-- Lookup in a configuration table. -/
def getval (l : List (String × ℚ)) (k : String) : ℚ :=
  match l with
  | [] => 0
  | (k', x) :: rest => if k' = k then x else getval rest k

/-- `darrell_s_delta_gsat_estimates` (lines 139-144). -/
def darrell (period : String) : List ℚ :=
  if period = "MH" then [0.2, 1.0]
  else if period = "LGM" then [-7, -4]
  else if period = "LIG" then [0.5, 1.5]
  else if period = "MPWP" then [2.5, 4]
  else if period = "EECO" then [11, 17]
  else []

/-- The subplot parameter table `dic_summary_plots_ipcc_3_43_with_global_means`
(lines 668-686): (period, var, region, rds) per subplot. -/
def sp344 : List (String × String × String × String) :=
  [("MH", "MAT", "Globe", "Bartlein2011"),
   ("LGM", "MAT", "Globe", "Bartlein2011"),
   ("LIG", "MAT", "Globe", "Bartlein2011"),
   ("MPWP", "MAT", "Globe", "Bartlein2011"),
   ("EECO", "MAT", "Globe", "Bartlein2011"),
   ("MH", "MTCO", "WesternEurope", "Bartlein2011"),
   ("LGM", "MTCO", "WesternEurope", "Cleator2019"),
   ("MH", "MTWA", "WesternEurope", "Bartlein2011"),
   ("LGM", "MTWA", "WesternEurope", "Cleator2019"),
   ("MH", "MAP", "WesternEurope", "Bartlein2011"),
   ("LGM", "MAP", "WesternEurope", "Cleator2019"),
   ("MH", "MTCO", "NAmerica", "Bartlein2011"),
   ("LGM", "MTCO", "NAmerica", "Cleator2019"),
   ("MH", "MTWA", "NAmerica", "Bartlein2011"),
   ("LGM", "MTWA", "NAmerica", "Cleator2019"),
   ("MH", "MAP", "NAmerica", "Bartlein2011"),
   ("LGM", "MAP", "NAmerica", "Cleator2019"),
   ("MH", "MAP", "WestAfrica", "Bartlein2011"),
   ("LGM", "MAP", "WestAfrica", "Cleator2019")]

/-- The model list of a subplot (lines 767-776). -/
def spModels (period : String) : List String :=
  if period = "LGM" then list_models_lgm
  else if period = "MH" then list_models_mh
  else if period = "LIG" then dic_global_mean_lig.map Prod.fst
  else if period = "MPWP" then dic_global_mean_plio.map Prod.fst
  else if period = "EECO" then dic_global_mean_eocene.map Prod.fst
  else []

/-- `(delta, deltaerr)` for one model of a subplot (lines 795-818): for the
Globe, MH/LGM read `['allmodelpts']['delta_mean']` from `dic_res` and the
deeper-time periods read the global-mean tables, with `deltaerr = 0`;
other regions read `['modelonrecpts']` mean and std. -/
def deltaPair (d : DicRes) (period var region rds model : String) : ℚ × ℚ :=
  if region = "Globe" then
    if period = "MH" ∨ period = "LGM" then
      (resGet d (.deltaMean period var region rds model "allmodelpts"), 0)
    else if period = "LIG" then (getval dic_global_mean_lig model, 0)
    else if period = "MPWP" then (getval dic_global_mean_plio model, 0)
    else (getval dic_global_mean_eocene model, 0)
  else
    (resGet d (.deltaMean period var region rds model "modelonrecpts"),
     resGet d (.deltaStd period var region rds model "modelonrecpts"))

/-- The reconstruction numbers of a subplot (lines 753-764): the assessed
range for the Globe, and the `'reconstructions'` mean/std otherwise. -/
def reconVals (d : DicRes) (period var region rds : String) : List ℚ :=
  if region = "Globe" then darrell period
  else [resGet d (.recMean period var region rds),
        resGet d (.recStd period var region rds)]

/-- `list_pmip4_models2` (lines 821-824). -/
def list_pmip4_models2 (period : String) : List String :=
  if period = "MH" ∨ period = "LGM" then list_pmip4_models else spModels period

/-- The models whose deltas feed `ens_mean_ar6` (lines 825-843, 869):
CMIP6 models together with the remaining PMIP4 models. -/
def bucketAR6 (period : String) : List String :=
  (spModels period).filter
    (fun m => decide (m ∈ list_cmip6_models) || decide (m ∈ list_pmip4_models2 period))

/-- The models whose deltas feed `ens_mean_ar5` (lines 845-853, 870). -/
def bucketAR5 (period : String) : List String :=
  (spModels period).filter
    (fun m => !(decide (m ∈ list_cmip6_models) || decide (m ∈ list_pmip4_models2 period)))

/-- All numeric values one subplot of Figure 3.44 writes to the report and
to the figure (lines 753-883): reconstruction numbers, per-model delta and
deltaerr, and the two ensemble means. -/
def subplotVals (d : DicRes) (sp : String × String × String × String) : List ℚ :=
  reconVals d sp.1 sp.2.1 sp.2.2.1 sp.2.2.2 ++
  (spModels sp.1).flatMap (fun m =>
    [(deltaPair d sp.1 sp.2.1 sp.2.2.1 sp.2.2.2 m).1,
     (deltaPair d sp.1 sp.2.1 sp.2.2.1 sp.2.2.2 m).2]) ++
  [average ((bucketAR5 sp.1).map (fun m => (deltaPair d sp.1 sp.2.1 sp.2.2.1 sp.2.2.2 m).1)),
   average ((bucketAR6 sp.1).map (fun m => (deltaPair d sp.1 sp.2.1 sp.2.2.1 sp.2.2.2 m).1))]

/-- The state threaded through Part II: the results structure and the
stream of emitted numbers. -/
structure PlotState where
  dicRes : DicRes
  out : List ℚ

/-- Processing of one Figure 3.44 subplot (the body of the loop at
line 713): reads `dicRes`, appends to the outputs. -/
def fig344Step (s : PlotState) (sp : String × String × String × String) : PlotState :=
  { s with out := s.out ++ subplotVals s.dicRes sp }

/-- The Figure 3.44 loop over all subplots (lines 713-922). -/
def fig344Run (s : PlotState) : PlotState :=
  sp344.foldl fig344Step s

/-- All numeric values Figure 3.2a reads from `dic_res` and emits
(lines 960-1054): the land/ocean reconstruction means and stds, then the
four `modelonrecpts` numbers for each LGM model. -/
def fig32aVals (d : DicRes) : List ℚ :=
  [resGet d (.recMean "LGM" "MATocean" "Globe" "Tierney2019"),
   resGet d (.recStd "LGM" "MATocean" "Globe" "Tierney2019"),
   resGet d (.recMean "LGM" "MAT" "Globe" "Cleator2019"),
   resGet d (.recStd "LGM" "MAT" "Globe" "Cleator2019")] ++
  list_models_lgm.flatMap (fun m =>
    [resGet d (.deltaMean "LGM" "MATocean" "Globe" "Tierney2019" m "modelonrecpts"),
     resGet d (.deltaStd "LGM" "MATocean" "Globe" "Tierney2019" m "modelonrecpts"),
     resGet d (.deltaMean "LGM" "MAT" "Globe" "Cleator2019" m "modelonrecpts"),
     resGet d (.deltaStd "LGM" "MAT" "Globe" "Cleator2019" m "modelonrecpts")])

/-- The Figure 3.2a block (lines 930-1071), executed since
`plot_deltaTland_vs_deltaTocean == 'yes'`. -/
def fig32aRun (s : PlotState) : PlotState :=
  { s with out := s.out ++ fig32aVals s.dicRes }

/-- The whole of Part II, starting from the results structure produced (or
loaded) by Part I. -/
def partIIRun (d : DicRes) : PlotState :=
  fig32aRun (fig344Run { dicRes := d, out := [] })

/-! ## Helper lemmas -/

/-- One Monte Carlo realisation of line 523 expands to the weighted mean
of the anomalies plus the shared deviate times the weighted sum of the
standard errors. -/
theorem rraveOne_shared (rme rse w : List ℚ) (z : ℚ)
    (h1 : rme.length = rse.length) (h2 : rse.length = w.length) :
    rraveOne rme rse w z = wsum rme w + z * wsum rse w := by
  induction rme generalizing rse w with
  | nil =>
    have hs : rse = [] := List.length_eq_zero.mp (by simpa using h1.symm)
    subst hs
    have hw : w = [] := List.length_eq_zero.mp (by simpa using h2.symm)
    subst hw
    simp [rraveOne, gaussField, wsum]
  | cons m rms ih =>
    cases rse with
    | nil => simp at h1
    | cons s rss =>
      cases w with
      | nil => simp at h2
      | cons w0 ws =>
        have ht := ih rss ws (by simpa using h1) (by simpa using h2)
        simp only [rraveOne, gaussField, random_gauss, wsum,
          List.zipWith_cons_cons, List.sum_cons] at ht ⊢
        rw [ht]
        ring

/-- `optMap` of an everywhere-successful body is the plain `map`. -/
theorem optMap_eq_map {α β : Type} (f : α → Option β) (g : α → β)
    (h : ∀ x, f x = some (g x)) (l : List α) : optMap f l = some (l.map g) := by
  induction l with
  | nil => simp [optMap]
  | cons x xs ih => simp [optMap, h x, ih]

theorem zipWith_map_same {α β : Type} (f : β → β → β) (g h : α → β) (l : List α) :
    List.zipWith f (l.map g) (l.map h) = l.map (fun x => f (g x) (h x)) := by
  induction l with
  | nil => simp
  | cons x xs ih => simp [ih]

/-- A successful `N.random.choice` returns the values at the chosen indices. -/
theorem npChoice_some (a : List ℚ) (n : ℕ) (idxs : List ℕ) (h : n ≤ a.length) :
    npChoiceNoReplace a n idxs = some ((idxs.take n).map (fun i => a.getD i 0)) := by
  simp [npChoiceNoReplace, Nat.not_lt.mpr h]

theorem compressedA_cons (c : MCell) (l : MArr) :
    compressedA (c :: l) = if c.msk then compressedA l else c.val :: compressedA l := by
  cases hm : c.msk <;> simp [compressedA, List.filter_cons, hm]

theorem countA_cons (c : MCell) (l : MArr) :
    countA (c :: l) = if c.msk then countA l else countA l + 1 := by
  cases hm : c.msk <;> simp [countA, List.filter_cons, hm]

theorem compressedA_length (a : MArr) : (compressedA a).length = countA a := by
  simp [compressedA, countA]

/-- Transforming the values of a masked array commutes with compression. -/
theorem compressedA_map_val (f : ℚ → ℚ) (a : MArr) :
    compressedA (a.map (fun c => ⟨f c.val, c.msk⟩)) = (compressedA a).map f := by
  induction a with
  | nil => rfl
  | cons c cs ih =>
    rw [List.map_cons, compressedA_cons, compressedA_cons, ih]
    cases hm : c.msk <;> simp

theorem maskOf_map_val (f : ℚ → ℚ) (a : MArr) :
    maskOf (a.map (fun c => ⟨f c.val, c.msk⟩)) = maskOf a := by
  induction a with
  | nil => rfl
  | cons c cs ih =>
    show c.msk :: maskOf (cs.map (fun c => ⟨f c.val, c.msk⟩)) = c.msk :: maskOf cs
    rw [ih]

theorem maskOf_area_weights (areas : List ℚ) (a : MArr) (h : areas.length = a.length) :
    maskOf (area_weights areas a) = maskOf a := by
  induction areas generalizing a with
  | nil =>
    cases a with
    | nil => rfl
    | cons c cs => simp at h
  | cons ar ars ih =>
    cases a with
    | nil => simp at h
    | cons c cs =>
      show c.msk :: maskOf (area_weights ars cs) = c.msk :: maskOf cs
      rw [ih cs (by simpa using h)]

theorem countA_congr (a b : MArr) (h : maskOf a = maskOf b) : countA a = countA b := by
  induction a generalizing b with
  | nil =>
    cases b with
    | nil => rfl
    | cons d ds => simp [maskOf] at h
  | cons c cs ih =>
    cases b with
    | nil => simp [maskOf] at h
    | cons d ds =>
      simp only [maskOf, List.map_cons, List.cons.injEq] at h
      rw [countA_cons, countA_cons, h.1, ih ds h.2]

/-- Elements of `compressedA (area_weights areas a)` are areas. -/
theorem compressedA_area_weights_subset (areas : List ℚ) (a : MArr) :
    ∀ x ∈ compressedA (area_weights areas a), x ∈ areas := by
  induction areas generalizing a with
  | nil => intro x hx; simp [area_weights, compressedA] at hx
  | cons ar ars ih =>
    cases a with
    | nil => intro x hx; simp [area_weights, compressedA] at hx
    | cons c cs =>
      intro x hx
      rw [show area_weights (ar :: ars) (c :: cs) =
            (⟨ar, c.msk⟩ : MCell) :: area_weights ars cs from rfl,
          compressedA_cons] at hx
      by_cases hm : c.msk
      · rw [if_pos hm] at hx
        exact List.mem_cons_of_mem ar (ih cs x hx)
      · rw [if_neg hm] at hx
        rcases List.mem_cons.mp hx with rfl | hx2
        · exact List.mem_cons_self _ _
        · exact List.mem_cons_of_mem ar (ih cs x hx2)

theorem sum_map_div (l : List ℚ) (t : ℚ) :
    (l.map (fun x => x / t)).sum = l.sum / t := by
  induction l with
  | nil => simp
  | cons x xs ih => simp [ih, add_div]

/-- After imposing `recmask`, both fields carry the union of the two
original masks. -/
theorem mask_after_remask (r s : MArr) (h : r.length = s.length) :
    maskOf (rmeM r s) = maskSum (maskOf r) (maskOf s) ∧
    maskOf (rseM r s) = maskSum (maskOf r) (maskOf s) := by
  induction r generalizing s with
  | nil =>
    cases s with
    | nil => exact ⟨rfl, rfl⟩
    | cons d ds => simp at h
  | cons c cs ih =>
    cases s with
    | nil => simp at h
    | cons d ds =>
      obtain ⟨ih1, ih2⟩ := ih ds (by simpa using h)
      constructor
      · show ((d.msk || c.msk) || c.msk) :: maskOf (rmeM cs ds) =
            (c.msk || d.msk) :: maskSum (maskOf cs) (maskOf ds)
        rw [ih1, show ((d.msk || c.msk) || c.msk) = (c.msk || d.msk) from by
          cases c.msk <;> cases d.msk <;> rfl]
      · show ((d.msk || c.msk) || d.msk) :: maskOf (rseM cs ds) =
            (c.msk || d.msk) :: maskSum (maskOf cs) (maskOf ds)
        rw [ih2, show ((d.msk || c.msk) || d.msk) = (c.msk || d.msk) from by
          cases c.msk <;> cases d.msk <;> rfl]

theorem rmeM_length (r s : MArr) (h : r.length = s.length) :
    (rmeM r s).length = r.length := by
  simp [rmeM, masked_where, recmask, maskSum, maskOf, h]

theorem compressedPairs_cons (p : (ℚ × ℚ) × Bool) (l : List ((ℚ × ℚ) × Bool)) :
    compressedPairs (p :: l) =
      if p.2 then compressedPairs l else p.1 :: compressedPairs l := by
  cases hm : p.2 <;> simp [compressedPairs, List.filter_cons, hm]

/-- Compressing a cellwise pairing of two identically masked arrays pairs
the k-th unmasked value of one with the k-th unmasked value of the other:
both come from the same grid point. -/
theorem zip_compressed_eq (a b : MArr) (h : maskOf a = maskOf b) :
    (compressedA a).zip (compressedA b) = compressedPairs (zipM a b) := by
  induction a generalizing b with
  | nil =>
    cases b with
    | nil => rfl
    | cons d ds => simp [maskOf] at h
  | cons c cs ih =>
    cases b with
    | nil => simp [maskOf] at h
    | cons d ds =>
      simp only [maskOf, List.map_cons, List.cons.injEq] at h
      obtain ⟨h1, h2⟩ := h
      rw [compressedA_cons, compressedA_cons,
        show zipM (c :: cs) (d :: ds) =
          ((c.val, d.val), c.msk || d.msk) :: zipM cs ds from rfl,
        compressedPairs_cons, ← h1]
      cases hm : c.msk
      · simp [ih ds h2]
      · simp [ih ds h2]

/-- Every step of the Figure 3.44 subplot loop leaves `dicRes` unchanged. -/
theorem fig344_foldl_preserves (l : List (String × String × String × String))
    (s : PlotState) : (l.foldl fig344Step s).dicRes = s.dicRes := by
  induction l generalizing s with
  | nil => rfl
  | cons sp sps ih => exact (ih (fig344Step s sp)).trans rfl

/-! ## Claims -/

/-- C1, counterexample.  The claim says each Monte Carlo realisation is a
weighted sum of independent Gaussian draws, one per unmasked grid point.
Independent per-point draws centred at 0 with sigma 1 can realise the
perturbed field (0, 1) (deviates 0 and 1).  The code's `random.gauss(rme,
rse)` broadcasts one scalar deviate `z` over all points, producing
`(z, z)`: no value of the single deviate yields (0, 1), so the per-point
draws are fully correlated, not independent. -/
theorem c1_counterexample :
    ¬ ∃ z : ℚ, gaussField [0, 0] [1, 1] z = [0, 1] := by
  rintro ⟨z, h⟩
  simp [gaussField, random_gauss] at h
  obtain ⟨h1, h2⟩ := h
  rw [h1] at h2
  exact absurd h2 (by norm_num)

/-- C1 (amended): the stored reconstruction statistics are the sample mean
and standard deviation of the 10000 Monte Carlo realisations, where each
realisation draws a single standard normal deviate `z` shared by all
unmasked grid points: it equals the weighted sum of the reconstructed
anomalies plus `z` times the weighted sum of the standard errors (weights
the normalised area weights).  The realisation list itself is that of the
shared-deviate process, so mean and standard deviation agree with it for
any definition of std (frvar being std squared). -/
theorem c1_amended (rme rse recwei : List ℚ) (zs : List ℚ)
    (h1 : rme.length = rse.length) (h2 : rse.length = recwei.length)
    (hn : zs.length = niter) :
    rrave rme rse recwei zs =
      zs.map (fun z => wsum rme recwei + z * wsum rse recwei) ∧
    frave rme rse recwei zs =
      average (zs.map (fun z => wsum rme recwei + z * wsum rse recwei)) ∧
    frvar rme rse recwei zs =
      nvar (zs.map (fun z => wsum rme recwei + z * wsum rse recwei)) := by
  have hl : rrave rme rse recwei zs =
      zs.map (fun z => wsum rme recwei + z * wsum rse recwei) := by
    apply List.map_congr_left
    intro z _
    exact rraveOne_shared rme rse recwei z h1 h2
  exact ⟨hl, by rw [frave, hl], by rw [frvar, hl]⟩

/-- C1 amended, witness at a concrete input. -/
theorem c1_amended_witness :
    ([1, 2] : List ℚ).length = ([3, 4] : List ℚ).length ∧
    ([3, 4] : List ℚ).length = ([5, 6] : List ℚ).length ∧
    (List.replicate niter (0 : ℚ)).length = niter ∧
    rrave [1, 2] [3, 4] [5, 6] (List.replicate niter 0) =
      (List.replicate niter (0 : ℚ)).map
        (fun z => wsum [1, 2] [5, 6] + z * wsum [3, 4] [5, 6]) :=
  ⟨by decide, by decide, by simp,
   (c1_amended [1, 2] [3, 4] [5, 6] (List.replicate niter 0)
     (by decide) (by decide) (by simp)).1⟩

/-- C2: with both regional-average series long enough for the 50-year
samples (so no `N.random.choice` fails) and 10000 iterations, the list
`deltam` whose mean and standard deviation are stored as `delta_mean` and
`delta_std` is exactly the list of per-iteration differences of claim C2:
each iteration draws a random 50-year sample of the past series and an
independent one of the pre-industrial series, averages each, and takes
past minus pre-industrial; the stored statistics are the mean and std
(variance `nvar` being its square) of those 10000 differences. -/
theorem c2_delta_stats (piS pastS : List ℚ) (draws : List (List ℕ × List ℕ))
    (hpi : nbyrs ≤ piS.length) (hpa : nbyrs ≤ pastS.length)
    (hn : draws.length = niter) :
    deltam piS pastS draws = claimDiffs piS pastS draws ∧
    delta_mean piS pastS draws = (claimDiffs piS pastS draws).map average ∧
    delta_var piS pastS draws = (claimDiffs piS pastS draws).map nvar := by
  have hdpi : distpi piS draws =
      some (draws.map (fun dr => average ((dr.1.take nbyrs).map (fun i => piS.getD i 0)))) := by
    apply optMap_eq_map
    intro dr
    rw [npChoice_some piS nbyrs dr.1 hpi]
    rfl
  have hdpa : distpast pastS draws =
      some (draws.map (fun dr => average ((dr.2.take nbyrs).map (fun i => pastS.getD i 0)))) := by
    apply optMap_eq_map
    intro dr
    rw [npChoice_some pastS nbyrs dr.2 hpa]
    rfl
  have hcd : claimDiffs piS pastS draws =
      some (draws.map (fun dr =>
        average ((dr.2.take nbyrs).map (fun i => pastS.getD i 0)) -
        average ((dr.1.take nbyrs).map (fun i => piS.getD i 0)))) := by
    apply optMap_eq_map
    intro dr
    rw [npChoice_some pastS nbyrs dr.2 hpa, npChoice_some piS nbyrs dr.1 hpi]
  have hdm : deltam piS pastS draws = claimDiffs piS pastS draws := by
    simp only [deltam, hdpi, hdpa, hcd, zipWith_map_same]
  exact ⟨hdm, by rw [delta_mean, hdm], by rw [delta_var, hdm]⟩

/-- C2, witness at a concrete input. -/
theorem c2_delta_stats_witness :
    nbyrs ≤ (List.replicate 50 (0 : ℚ)).length ∧
    nbyrs ≤ (List.replicate 50 (1 : ℚ)).length ∧
    (List.replicate niter (List.range 50, List.range 50)).length = niter ∧
    deltam (List.replicate 50 0) (List.replicate 50 1)
        (List.replicate niter (List.range 50, List.range 50)) =
      claimDiffs (List.replicate 50 0) (List.replicate 50 1)
        (List.replicate niter (List.range 50, List.range 50)) :=
  ⟨by simp [nbyrs], by simp [nbyrs], by simp,
   (c2_delta_stats (List.replicate 50 0) (List.replicate 50 1)
     (List.replicate niter (List.range 50, List.range 50))
     (by simp [nbyrs]) (by simp [nbyrs]) (by simp)).1⟩

set_option maxHeartbeats 2000000 in
set_option maxRecDepth 100000 in
/-- C3: the combinations processed by the averaging stage are exactly
those enumerated by the claim (every period, every region, the datasets
listed for the period in `dic_list_vars` with their listed variables; no
(period, reconstruction) pair absent from `dic_list_vars` is processed),
and every processed entry stores exactly the key paths the claim requires:
'mask', 'nbpts', 'reconstructions'/'mean', 'reconstructions'/'std', and
for every model of the period both cases with 'delta_mean' and
'delta_std'. -/
theorem c3_dic_res_structure :
    (∀ c ∈ processedCombos, c ∈ claimCombos) ∧
    (∀ c ∈ claimCombos, c ∈ processedCombos) ∧
    (∀ c ∈ processedCombos, entryPaths c.1 c.2.2.2 = claimPaths c.1) := by
  refine ⟨?_, ?_, ?_⟩ <;> decide

/-- C3, witness at a concrete combination. -/
theorem c3_witness :
    ("LGM", "MATocean", "Globe", "Tierney2019") ∈ processedCombos ∧
    entryPaths "LGM" "Tierney2019" = claimPaths "LGM" :=
  ⟨by decide,
   c3_dic_res_structure.2.2 ("LGM", "MATocean", "Globe", "Tierney2019") (by decide)⟩

/-- C4: the Monte Carlo weight vector `recwei` is the area weights of the
reconstruction grid divided by their total (`N.sum` of the masked weight
array, i.e. the total over the unmasked points), so the weights restricted
to the unmasked grid points sum to 1, and each weight is non-negative
(given non-negative cell areas and a positive unmasked total). -/
theorem c4_weights_normalised (areas : List ℚ) (a : MArr)
    (hpos : ∀ x ∈ areas, 0 ≤ x) (hsum : 0 < msum (area_weights areas a)) :
    (recwei areas a).sum = 1 ∧ ∀ w ∈ recwei areas a, 0 ≤ w := by
  have hrw : recwei areas a =
      (compressedA (area_weights areas a)).map
        (fun x => x / msum (area_weights areas a)) := by
    simp only [recwei, recweights]
    exact compressedA_map_val (fun x => x / msum (area_weights areas a))
      (area_weights areas a)
  constructor
  · rw [hrw, sum_map_div]
    have hms : (compressedA (area_weights areas a)).sum = msum (area_weights areas a) := rfl
    rw [hms]
    exact div_self (ne_of_gt hsum)
  · rw [hrw]
    intro w hw
    obtain ⟨x, hx, rfl⟩ := List.mem_map.mp hw
    exact div_nonneg (hpos x (compressedA_area_weights_subset areas a x hx))
      (le_of_lt hsum)

/-- C4, witness at a concrete input. -/
theorem c4_witness :
    (∀ x ∈ ([1, 3] : List ℚ), 0 ≤ x) ∧
    0 < msum (area_weights [1, 3] [⟨5, false⟩, ⟨7, true⟩]) ∧
    (recwei [1, 3] [⟨5, false⟩, ⟨7, true⟩]).sum = 1 :=
  ⟨by decide, by norm_num [msum, area_weights, compressedA],
   (c4_weights_normalised [1, 3] [⟨5, false⟩, ⟨7, true⟩] (by decide)
     (by norm_num [msum, area_weights, compressedA])).1⟩

/-- C5: the averaging stage stores `dic_res` in the key-value store under
the single key 'dic_res', and the skip branch reads that same key back:
loading after saving returns exactly the saved structure, so both modes
hand the plotting stage the same nested dictionary. -/
theorem c5_cache_roundtrip {α : Type} (st : Store α) (d : α) :
    partI_load (partI_save st d) = some d := by
  simp [partI_load, partI_save, shelvePut, shelveGet]

/-- C6: Part II only reads the results structure: running the whole
plotting stage (Figure 3.44, Figure 3.2a and the text reports) leaves
`dic_res` exactly as the averaging stage produced or loaded it. -/
theorem c6_plotting_preserves_dic_res (d : DicRes) :
    (partIIRun d).dicRes = d := by
  have h := fig344_foldl_preserves sp344 { dicRes := d, out := [] }
  simpa [partIIRun, fig32aRun, fig344Run] using h

/-- C7: unit conversion is applied to both the pre-industrial and the
past-period field before regridding: every temperature variable (MAT,
MTCO, MTWA, MATocean) has exactly 273.15 subtracted from every value, and
MAP is multiplied by 86400*365 for every model except the two iLOVECLIM
configurations, whose precipitation fields pass through unchanged. -/
theorem c7_unit_conversion (regrid : List ℚ → List ℚ) (model : String)
    (vpi vpast : List ℚ) :
    (∀ var ∈ tempConvertVars,
      modelFieldPipeline regrid var model vpi = regrid (vpi.map (fun x => x - 273.15)) ∧
      modelFieldPipeline regrid var model vpast = regrid (vpast.map (fun x => x - 273.15))) ∧
    (model ∉ iloveclimModels →
      modelFieldPipeline regrid "MAP" model vpi = regrid (vpi.map (fun x => x * (86400 * 365))) ∧
      modelFieldPipeline regrid "MAP" model vpast = regrid (vpast.map (fun x => x * (86400 * 365)))) ∧
    (model ∈ iloveclimModels →
      modelFieldPipeline regrid "MAP" model vpi = regrid vpi ∧
      modelFieldPipeline regrid "MAP" model vpast = regrid vpast) := by
  have h1 : ¬ (("MAP" : String) ∈ tempConvertVars) := by decide
  have h2 : (("MAP" : String) ∈ ["MAP"]) := by decide
  refine ⟨?_, ?_, ?_⟩
  · intro var hvar
    simp only [tempConvertVars, List.mem_cons, List.mem_singleton,
      List.not_mem_nil, or_false] at hvar
    rcases hvar with rfl | rfl | rfl | rfl <;> exact ⟨rfl, rfl⟩
  · intro h
    constructor <;>
      simp only [modelFieldPipeline, convertUnits, if_neg h1, if_pos h2, if_neg h]
  · intro h
    constructor <;>
      simp only [modelFieldPipeline, convertUnits, if_neg h1, if_pos h2, if_pos h]

/-- C7, witness at concrete inputs. -/
theorem c7_witness :
    ("MAT" : String) ∈ tempConvertVars ∧
    ("CESM" : String) ∉ iloveclimModels ∧
    ("iLOVECLIM-ICE-6G" : String) ∈ iloveclimModels ∧
    modelFieldPipeline id "MAT" "CESM" [300] = id (([300] : List ℚ).map (fun x => x - 273.15)) ∧
    modelFieldPipeline id "MAP" "CESM" [2] = id (([2] : List ℚ).map (fun x => x * (86400 * 365))) ∧
    modelFieldPipeline id "MAP" "iLOVECLIM-ICE-6G" [2] = id ([2] : List ℚ) :=
  ⟨by decide, by decide, by decide,
   ((c7_unit_conversion id "CESM" [300] [300]).1 "MAT" (by decide)).1,
   ((c7_unit_conversion id "CESM" [2] [2]).2.1 (by decide)).1,
   ((c7_unit_conversion id "iLOVECLIM-ICE-6G" [2] [2]).2.2 (by decide)).1⟩

/-- C8: the mask applied to the reconstruction fields is the union of the
mask of the means and the mask of the standard errors, so the compressed
vectors of means, standard errors and normalised weights all have the
length `nbpts = rmeorig.count()`, and compressing the cellwise pairing
shows that the k-th compressed mean is paired with the standard error of
the same grid point (so every Gaussian draw pairs a mean with its own
standard error). -/
theorem c8_common_mask (areas : List ℚ) (rmeorig rseorig : MArr)
    (hab : rmeorig.length = rseorig.length)
    (har : areas.length = rmeorig.length) :
    maskOf (rmeM rmeorig rseorig) = maskSum (maskOf rmeorig) (maskOf rseorig) ∧
    maskOf (rseM rmeorig rseorig) = maskSum (maskOf rmeorig) (maskOf rseorig) ∧
    (compressedA (rmeM rmeorig rseorig)).length = countA (rmeM rmeorig rseorig) ∧
    (compressedA (rseM rmeorig rseorig)).length = countA (rmeM rmeorig rseorig) ∧
    (recwei areas (rmeM rmeorig rseorig)).length = countA (rmeM rmeorig rseorig) ∧
    (compressedA (rmeM rmeorig rseorig)).zip (compressedA (rseM rmeorig rseorig)) =
      compressedPairs (zipM (rmeM rmeorig rseorig) (rseM rmeorig rseorig)) := by
  obtain ⟨hm1, hm2⟩ := mask_after_remask rmeorig rseorig hab
  have hmm : maskOf (rmeM rmeorig rseorig) = maskOf (rseM rmeorig rseorig) :=
    hm1.trans hm2.symm
  have hwlen : (recwei areas (rmeM rmeorig rseorig)).length =
      countA (rmeM rmeorig rseorig) := by
    have hA : maskOf (recweights areas (rmeM rmeorig rseorig)) =
        maskOf (area_weights areas (rmeM rmeorig rseorig)) := by
      simp only [recweights]
      exact maskOf_map_val
        (fun x => x / msum (area_weights areas (rmeM rmeorig rseorig)))
        (area_weights areas (rmeM rmeorig rseorig))
    have hB : maskOf (area_weights areas (rmeM rmeorig rseorig)) =
        maskOf (rmeM rmeorig rseorig) :=
      maskOf_area_weights areas (rmeM rmeorig rseorig)
        (har.trans (rmeM_length rmeorig rseorig hab).symm)
    rw [recwei, compressedA_length]
    exact countA_congr _ _ (hA.trans hB)
  refine ⟨hm1, hm2, compressedA_length _, ?_, hwlen, zip_compressed_eq _ _ hmm⟩
  rw [compressedA_length]
  exact countA_congr _ _ hmm.symm

/-- C8, witness at a concrete input. -/
theorem c8_witness :
    ([10, 20] : List ℚ).length = ([⟨1, false⟩, ⟨2, true⟩] : MArr).length ∧
    ([⟨1, false⟩, ⟨2, true⟩] : MArr).length = ([⟨3, false⟩, ⟨4, false⟩] : MArr).length ∧
    (compressedA (rmeM [⟨1, false⟩, ⟨2, true⟩] [⟨3, false⟩, ⟨4, false⟩])).zip
        (compressedA (rseM [⟨1, false⟩, ⟨2, true⟩] [⟨3, false⟩, ⟨4, false⟩])) =
      compressedPairs (zipM (rmeM [⟨1, false⟩, ⟨2, true⟩] [⟨3, false⟩, ⟨4, false⟩])
        (rseM [⟨1, false⟩, ⟨2, true⟩] [⟨3, false⟩, ⟨4, false⟩])) :=
  ⟨by decide, by decide,
   (c8_common_mask [10, 20] [⟨1, false⟩, ⟨2, true⟩] [⟨3, false⟩, ⟨4, false⟩]
     (by decide) (by decide)).2.2.2.2.2⟩

/-- C9: `N.random.choice(a, 50, replace=0)` samples without replacement,
so it is defined only when the (compressed, i.e. unmasked) series has at
least 50 entries: a shorter series makes the call fail (`none`, numpy's
ValueError) rather than produce a sample, and the failure propagates to
the stored `delta_mean`. -/
theorem c9_requires_50_years (a piS pastS : List ℚ) (idxs : List ℕ)
    (dr0 : List ℕ × List ℕ) (drs : List (List ℕ × List ℕ)) :
    (a.length < nbyrs → npChoiceNoReplace a nbyrs idxs = none) ∧
    (nbyrs ≤ a.length → ∃ r, npChoiceNoReplace a nbyrs idxs = some r) ∧
    (piS.length < nbyrs → delta_mean piS pastS (dr0 :: drs) = none) ∧
    (pastS.length < nbyrs → delta_mean piS pastS (dr0 :: drs) = none) := by
  refine ⟨fun h => ?_, fun h => ?_, fun h => ?_, fun h => ?_⟩
  · simp [npChoiceNoReplace, h]
  · exact ⟨_, npChoice_some a nbyrs idxs h⟩
  · have hc : npChoiceNoReplace piS nbyrs dr0.1 = none := by
      simp [npChoiceNoReplace, h]
    have hpi : distpi piS (dr0 :: drs) = none := by
      simp [distpi, optMap, hc]
    simp [delta_mean, deltam, hpi]
  · have hc : npChoiceNoReplace pastS nbyrs dr0.2 = none := by
      simp [npChoiceNoReplace, h]
    have hpa : distpast pastS (dr0 :: drs) = none := by
      simp [distpast, optMap, hc]
    cases hdpi : distpi piS (dr0 :: drs) <;>
      simp [delta_mean, deltam, hdpi, hpa]

/-- C9, witness at concrete inputs. -/
theorem c9_witness :
    ([1, 2] : List ℚ).length < nbyrs ∧
    npChoiceNoReplace [1, 2] nbyrs [0, 1] = none ∧
    delta_mean [1, 2] (List.replicate 50 0) [([0, 1], List.range 50)] = none :=
  ⟨by decide,
   (c9_requires_50_years [1, 2] [1, 2] (List.replicate 50 0) [0, 1]
     ([0, 1], List.range 50) []).1 (by decide),
   (c9_requires_50_years [1, 2] [1, 2] (List.replicate 50 0) [0, 1]
     ([0, 1], List.range 50) []).2.2.1 (by decide)⟩

/-- C10: resolving a Mid-Holocene model file by glob assigns the file name
only when exactly one file matches; with zero or several matches no
exception is raised at that point and the binding keeps its previous value,
so the script then opens the file bound by a previous iteration, or fails
with an undefined-name error (NameError) on the first iteration. -/
theorem c10_glob_resolution (file_list : List String) (cur : Option String) :
    (∀ f, file_list = [f] → globResolve file_list cur = some f) ∧
    (file_list.length ≠ 1 → globResolve file_list cur = cur) ∧
    (file_list.length ≠ 1 → cur = none →
      copen (globResolve file_list cur) = Except.error "NameError") ∧
    (∀ f, file_list.length ≠ 1 → cur = some f →
      copen (globResolve file_list cur) = Except.ok f) := by
  refine ⟨?_, ?_, ?_, ?_⟩
  · rintro f rfl; rfl
  · intro h; simp [globResolve, h]
  · intro h hc; simp [globResolve, h, hc, copen]
  · intro f h hc; simp [globResolve, h, hc, copen]

/-- C10, witness at concrete inputs. -/
theorem c10_witness :
    globResolve ["x"] none = some "x" ∧
    globResolve [] (some "y") = some "y" ∧
    copen (globResolve ["a", "b"] none) = Except.error "NameError" ∧
    copen (globResolve [] (some "y")) = Except.ok "y" :=
  ⟨(c10_glob_resolution ["x"] none).1 "x" rfl,
   (c10_glob_resolution [] (some "y")).2.1 (by decide),
   (c10_glob_resolution ["a", "b"] none).2.2.1 (by decide) rfl,
   (c10_glob_resolution [] (some "y")).2.2.2 "y" (by decide) rfl⟩

end DMC
